import Mathlib

/-!
Verification development for the juliet-cli context-assembly pipeline.

Shallow embedding of the relevant Python source:
  * `src/messages.py`   : `Message`, `Turn` and their serialization helpers.
  * `src/adapters.py`   : `ChromaContextAdapter.build_messages` (similarity
    ranking + tagging), `TimestampAdapter`, `UserRequestAdapter`,
    `AssistantPrefixAdapter`, `MessageCacheAdapter`, `ContextPipeline`.
  * `src/context.py`    : `ChromaMemoryStore.store_turn` / `store_batch`.
  * `src/fact_store.py` : `FactStore.append_fact`.

Modelling conventions: Python floats are modelled as rationals (`ℚ`);
the external Chroma query collaborator is modelled as a function from
(collection name, query text, n_results) to a query result of parallel
lists; file writes are modelled by returning the would-be appended lines;
`datetime.now()` is modelled by an explicit clock-string parameter.
-/

/-! ### Data model: `src/messages.py` -/

/-- The `Message` dataclass from `src/messages.py`. -/
structure Message where
  uuid : String
  role : String
  speaker : String
  content : String
  timestamp : String
deriving DecidableEq, Repr

/-- Embeds `Message.to_memory_string` from `src/messages.py` line 25:
`f"{self.speaker} @ {self.timestamp}: {self.content}"`. -/
def Message.to_memory_string (m : Message) : String :=
  m.speaker ++ " @ " ++ m.timestamp ++ ": " ++ m.content

/-- The `Turn` dataclass from `src/messages.py`. -/
structure Turn where
  uuid : String
  conversation_id : String
  request : Message
  response : Message
deriving DecidableEq, Repr

/-- A `{role, content}` chat message emitted by adapters. -/
structure Msg where
  role : String
  content : String
deriving DecidableEq, Repr

/-! ### String helpers (Python `str.strip`, `re.sub` chains) -/

/-- Whitespace characters stripped by Python `str.strip()` (ASCII subset). -/
def isPySpace (c : Char) : Bool :=
  c == ' ' || c == '\t' || c == '\n' || c == '\x0d' || c == '\x0b' || c == '\x0c'

/-- Strip `isPySpace` characters from both ends of a character list. -/
def stripChars (l : List Char) : List Char :=
  ((l.dropWhile isPySpace).reverse.dropWhile isPySpace).reverse

/-- Python `s.strip()`. -/
def pyStrip (s : String) : String := String.mk (stripChars s.data)

/-- Characters kept by the tag sanitizer (regex class `[a-zA-Z0-9_-]`,
`src/adapters.py` line 81). -/
def isTagChar (c : Char) : Bool :=
  ('a' ≤ c && c ≤ 'z') || ('A' ≤ c && c ≤ 'Z') || ('0' ≤ c && c ≤ '9') ||
    c == '_' || c == '-'

/-- Embeds `re.sub(r'\.[^.]+$', '', s)` (`src/adapters.py` line 80): drop the final
dot-extension when the string has a dot that is not its last character. -/
def stripExtChars (l : List Char) : List Char :=
  let afterRev := l.reverse.takeWhile (fun c => c ≠ '.')
  if afterRev.length = l.length then l
  else if afterRev = [] then l
  else (l.reverse.drop (afterRev.length + 1)).reverse

/-- Embeds `re.sub(r'[^a-zA-Z0-9_-]', '_', s)` (`src/adapters.py` line 81). -/
def replaceBadChars (l : List Char) : List Char :=
  l.map (fun c => if isTagChar c then c else '_')

/-- Embeds `re.sub(r'_+', '_', s)` (`src/adapters.py` line 82): collapse runs of
underscores to a single underscore. -/
def collapseUnderscores : List Char → List Char
  | [] => []
  | [c] => [c]
  | a :: b :: rest =>
    if a == '_' && b == '_' then collapseUnderscores (b :: rest)
    else a :: collapseUnderscores (b :: rest)

/-- Python `.strip('_')` (`src/adapters.py` line 82). -/
def stripUnderscores (l : List Char) : List Char :=
  ((l.dropWhile (fun c => c == '_')).reverse.dropWhile (fun c => c == '_')).reverse

/-- The full sanitization chain of `src/adapters.py` lines 80-82. -/
def sanitizeChars (l : List Char) : List Char :=
  stripUnderscores (collapseUnderscores (replaceBadChars (stripExtChars l)))

/-- The `clean_tag` computation of `src/adapters.py` lines 80-84, including the
fallback `if not clean_tag: clean_tag = "unknown"`. -/
def cleanTagOf (s : String) : String :=
  let l := sanitizeChars s.data
  if l = [] then "unknown" else String.mk l

/-! ### Similarity ranking: `ChromaContextAdapter.build_messages` -/

/-- The metadata fields read by the chroma adapters' tagging policies; a
missing Python dict key is `none`. -/
structure ChromaMeta where
  source_file : Option String
  role : Option String
deriving DecidableEq, Repr

/-- Inner tagging of `src/adapters.py` lines 77-90: by sanitized source-file
name, by role, or untagged when the mode does not match or the metadata
lacks the required key. -/
def tagText (tagging_mode : String) (text : String) (meta : ChromaMeta) : String :=
  if tagging_mode = "source_file" ∧ meta.source_file.isSome then
    let clean_tag := cleanTagOf (meta.source_file.getD "")
    "<" ++ clean_tag ++ ">" ++ text ++ "</" ++ clean_tag ++ ">"
  else if tagging_mode = "simple" ∧ meta.role.isSome then
    let role := meta.role.getD ""
    "<" ++ role ++ ">" ++ text ++ "</" ++ role ++ ">"
  else text

/-- One collection query result: parallel lists of documents, distances and
metadata, as returned by the external vector-search collaborator. -/
structure QueryResult where
  documents : List String
  distances : List ℚ
  metadatas : List ChromaMeta

/-- The external vector store: collection name → query text → n_results →
query result. Read-only from the adapters' point of view. -/
def Store : Type := String → String → Nat → QueryResult

/-- Python `max` over a nonempty list (`max(similarities)`,
`src/adapters.py` line 64); junk value `0` on `[]`, which the code never
reaches because it returns early when no documents were fetched. -/
def listMaxQ : List ℚ → ℚ
  | [] => 0
  | [x] => x
  | x :: y :: rest => max x (listMaxQ (y :: rest))

/-- Embeds `similarities = [1.0 - dist for dist in distances]`
(`src/adapters.py` line 63). -/
def similaritiesOf (distances : List ℚ) : List ℚ :=
  distances.map (fun d => 1 - d)

/-- Threshold computation of `src/adapters.py` lines 63-66:
`threshold = max(best_similarity / dynamic_multiplier, min_similarity)`. -/
def adaptiveThreshold (distances : List ℚ) (dynamic_multiplier min_similarity : ℚ) : ℚ :=
  let best_similarity := listMaxQ (similaritiesOf distances)
  let dynamic_threshold := best_similarity / dynamic_multiplier
  max dynamic_threshold min_similarity

/-- The filtering/tagging loop of `src/adapters.py` lines 68-92 over the
zipped `(doc, sim, meta)` triples: skip whitespace-only documents and
documents below the threshold, tag the rest. -/
def chunkFilter (tagging_mode : String) (threshold : ℚ)
    (triples : List (String × ℚ × ChromaMeta)) : List (ℚ × String) :=
  triples.filterMap (fun t =>
    let text := pyStrip t.1
    if text = "" then none
    else if t.2.1 < threshold then none
    else some (t.2.1, tagText tagging_mode text t.2.2))

/-- Descending-by-similarity comparison used to model the stable Python
`tagged_chunks.sort(key=lambda x: x[0], reverse=True)`
(`src/adapters.py` line 95). -/
def simDescBool (a b : ℚ × String) : Bool := decide (b.1 ≤ a.1)

/-- Stable descending sort of `src/adapters.py` line 95 (Python `list.sort`
is stable; `reverse=True` sorts by key descending keeping the original
order of equal keys). -/
def sortChunks (l : List (ℚ × String)) : List (ℚ × String) :=
  l.mergeSort simDescBool

/-- Embeds `outer_tag = tag or self.collection_name` (`src/adapters.py` line 101):
Python `or` falls through on `None` and on the empty string. -/
def outerTagOf (tag : Option String) (collection_name : String) : String :=
  match tag with
  | none => collection_name
  | some t => if t = "" then collection_name else t

/-- Embeds `ChromaContextAdapter.build_messages` (`src/adapters.py` lines 37-104)
as a pure function of the store. -/
def chromaBuildMessages (collection_name tagging_mode : String) (store : Store)
    (user_request : String) (top_k : Nat) (tag : Option String)
    (max_overfetch : Nat) (min_similarity dynamic_multiplier : ℚ) : List Msg :=
  if pyStrip user_request = "" then []
  else
    let fetch_k := min (top_k * 4) max_overfetch
    let results := store collection_name user_request fetch_k
    if results.documents = [] then []
    else
      let similarities := similaritiesOf results.distances
      let threshold := adaptiveThreshold results.distances dynamic_multiplier min_similarity
      let tagged_chunks := chunkFilter tagging_mode threshold
        (results.documents.zip (similarities.zip results.metadatas))
      let sorted_chunks := sortChunks tagged_chunks
      let selected_chunks := (sorted_chunks.take top_k).map (fun c => c.2)
      if selected_chunks = [] then []
      else
        let outer_tag := outerTagOf tag collection_name
        [⟨"system", "<" ++ outer_tag ++ ">\n" ++ String.intercalate "\n\n" selected_chunks
            ++ "\n</" ++ outer_tag ++ ">"⟩]

/-! ### Static adapters: `src/adapters.py` lines 122-176 -/

/-- Embeds `TimestampAdapter.build_messages` (`src/adapters.py` lines 122-126);
`clock` models the `datetime.now().strftime(...)` reading. -/
def timestampMessages (clock : String) : List Msg :=
  [⟨"system", "<timestamp>The current date and time is: " ++ clock ++ "</timestamp>"⟩]

/-- Embeds `UserRequestAdapter.build_messages` (`src/adapters.py` lines 129-139). -/
def userRequestMessages (tag_name user_request : String) : List Msg :=
  [⟨"user", "<" ++ tag_name ++ ">" ++ user_request ++ "</" ++ tag_name ++ ">"⟩]

/-- Embeds `AssistantPrefixAdapter.build_messages` (`src/adapters.py` lines 142-150). -/
def assistantPrefixMessages (prefixStr : String) : List Msg :=
  [⟨"assistant", prefixStr⟩]

/-- Embeds `MessageCacheAdapter.add_turn` (`src/adapters.py` lines 163-164):
`deque(maxlen=capacity).append` keeps the last `capacity` elements,
silently evicting from the front. -/
def cacheAdd (capacity : Nat) (cache : List Turn) (t : Turn) : List Turn :=
  let l := cache ++ [t]
  l.drop (l.length - capacity)

/-- The request/response line pair one cached turn contributes
(`src/adapters.py` lines 171-173). -/
def turnHistoryLines (t : Turn) : List String :=
  [t.request.to_memory_string, t.response.to_memory_string]

/-- Embeds `MessageCacheAdapter.build_messages` (`src/adapters.py` lines 166-176). -/
def cacheMessages (cache : List Turn) : List Msg :=
  if cache = [] then []
  else
    let history_lines := cache.flatMap turnHistoryLines
    [⟨"system", "<chat_history>\n" ++ String.intercalate "\n" history_lines
        ++ "\n</chat_history>"⟩]

/-! ### `ContextPipeline`: `src/adapters.py` lines 179-220 -/

/-- The static instruction fields the pipeline reads
(`src/instructions.py`, loaded once at construction). -/
structure ModelInstructions where
  system_message : String
  assistant_intro : String
  assistant_focus : String
deriving DecidableEq, Repr

/-- The `ContextPipeline` state: instructions, the shared chroma store, and the
message-cache adapter's deque (capacity 20 at registration). -/
structure ContextPipeline where
  instructions : ModelInstructions
  store : Store
  cache : List Turn

/-- The three fixed messages prepended by `ContextPipeline.build_messages`
(`src/adapters.py` lines 206-210). -/
def pipelineFixedMessages (ins : ModelInstructions) : List Msg :=
  [⟨"system", "<system>" ++ ins.system_message ++ "</system>"⟩,
   ⟨"assistant", "<assistant_intro>" ++ ins.assistant_intro ++ "</assistant_intro>"⟩,
   ⟨"system", "<focus>" ++ ins.assistant_focus ++ "</focus>"⟩]

/-- Embeds `ContextPipeline.build_messages` (`src/adapters.py` lines 201-220) with
the constructor's registration order (lines 190-196): timestamp, semantic,
episodic, message_cache, user_request, assistant_prefix. The Python
`if msgs: messages.extend(msgs)` is plain concatenation, since extending
by the empty list is a no-op. The chroma adapters are called with the
`build_messages` defaults `top_k=5, tag=None, max_overfetch=30,
min_similarity=0.15, dynamic_multiplier=4.0`. -/
def pipelineBuildMessages (p : ContextPipeline) (clock user_request : String) : List Msg :=
  pipelineFixedMessages p.instructions
    ++ timestampMessages clock
    ++ chromaBuildMessages "semantic" "source_file" p.store user_request 5 none 30 (3/20) 4
    ++ chromaBuildMessages "episodic" "simple" p.store user_request 5 none 30 (3/20) 4
    ++ cacheMessages p.cache
    ++ userRequestMessages "user" user_request
    ++ assistantPrefixMessages "<assistant>"

/-! ### Turn persistence: `ChromaMemoryStore.store_turn` / `store_batch`
(`src/context.py` lines 202-295) -/

/-- The metadata dict built for each stored document
(`src/context.py` lines 241-249). -/
structure StoredMeta where
  conversation_id : String
  turn_uuid : String
  message_type : String
  role : String
  speaker : String
  timestamp : String
deriving DecidableEq, Repr

/-- One JSON-lines audit record (`src/context.py` lines 255-265). -/
structure JsonRecord where
  id : String
  text : String
  metadata : StoredMeta
  conversation_id : String
  turn_uuid : String
  message_type : String
  role : String
  speaker : String
  timestamp : String
deriving DecidableEq, Repr

/-- The `("req", turn.request), ("res", turn.response)` decomposition
(`src/context.py` line 237). -/
def turnEntries (t : Turn) : List (String × Message) :=
  [("req", t.request), ("res", t.response)]

/-- Metadata for one stored message (`src/context.py` lines 241-249). -/
def mkStoredMeta (conversation_id : String) (t : Turn) (suffix : String)
    (msg : Message) : StoredMeta :=
  ⟨conversation_id, t.uuid, suffix, msg.role, msg.speaker, msg.timestamp⟩

/-- Audit record for one stored message (`src/context.py` lines 255-265). -/
def mkJsonRecord (conversation_id : String) (t : Turn) (suffix : String)
    (msg : Message) : JsonRecord :=
  ⟨t.uuid ++ "_" ++ suffix, msg.to_memory_string,
    mkStoredMeta conversation_id t suffix msg,
    conversation_id, t.uuid, suffix, msg.role, msg.speaker, msg.timestamp⟩

/-- The observable outcome of `store_batch`: the parallel document, id and
metadata lists handed to the vector store, the built JSON records, and the
lines appended to the audit file (empty when no export path is given). -/
structure StoreBatchResult where
  docs : List String
  ids : List String
  metadatas : List StoredMeta
  json_records : List JsonRecord
  audit_lines : List JsonRecord
deriving DecidableEq, Repr

/-- Embeds `ChromaMemoryStore.store_batch` (`src/context.py` lines 218-295) as a
pure function; the `collection_name` only names the external collection
written to, and the audit append happens only under
`if json_export_path and json_records:` (line 283), where Python truthiness
makes both `None` and the empty-string path falsy (no append). -/
def store_batch (conversation_id : String) (turns : List Turn)
    (collection_name : String) (json_export_path : Option String) : StoreBatchResult :=
  let entries := turns.flatMap (fun t => (turnEntries t).map (fun e => (t, e)))
  let docs := entries.map (fun e => e.2.2.to_memory_string)
  let ids := entries.map (fun e => e.1.uuid ++ "_" ++ e.2.1)
  let metadatas := entries.map (fun e => mkStoredMeta conversation_id e.1 e.2.1 e.2.2)
  let json_records := entries.map (fun e => mkJsonRecord conversation_id e.1 e.2.1 e.2.2)
  let audit_lines :=
    match json_export_path with
    | some p => if p = "" then [] else if json_records = [] then [] else json_records
    | none => []
  ⟨docs, ids, metadatas, json_records, audit_lines⟩

/-- Embeds `ChromaMemoryStore.store_turn` (`src/context.py` lines 202-216):
delegates to `store_batch` on the singleton list. -/
def store_turn (conversation_id : String) (turn : Turn)
    (collection_name : String) (json_export_path : Option String) : StoreBatchResult :=
  store_batch conversation_id [turn] collection_name json_export_path

/-! ### Fact store: `src/fact_store.py` lines 39-54 -/

/-- The `Fact` model from `src/fact_store.py` (subject/predicate/object triple;
`model_dump` equality is field-wise equality). -/
structure FactTriple where
  subject : String
  predicate : String
  object : String
deriving DecidableEq, Repr

/-- Embeds `FactStore.append_fact` (`src/fact_store.py` lines 39-54) acting on the
`facts` list of the YAML file: skip when the fact is already present,
otherwise append it at the end. -/
def append_fact (facts : List FactTriple) (fact : FactTriple) : List FactTriple :=
  if fact ∈ facts then facts else facts ++ [fact]

/-! ### Helper lemmas -/

/-- On a nonempty list, `listMaxQ` returns one of the elements. -/
theorem listMaxQ_mem : ∀ (l : List ℚ), l ≠ [] → listMaxQ l ∈ l
  | [x], _ => by simp [listMaxQ]
  | x :: y :: rest, _ => by
    have ih := listMaxQ_mem (y :: rest) (by simp)
    have hx : listMaxQ (x :: y :: rest) = max x (listMaxQ (y :: rest)) := rfl
    rcases max_choice x (listMaxQ (y :: rest)) with h | h
    · rw [hx, h]; exact List.mem_cons_self _ _
    · rw [hx, h]; exact List.mem_cons_of_mem x ih

/-- Every element of a list is bounded by `listMaxQ`. -/
theorem le_listMaxQ : ∀ (l : List ℚ) (s : ℚ), s ∈ l → s ≤ listMaxQ l
  | [x], s, h => by
    simp at h
    simp [listMaxQ, h]
  | x :: y :: rest, s, h => by
    have hx : listMaxQ (x :: y :: rest) = max x (listMaxQ (y :: rest)) := rfl
    rcases List.mem_cons.mp h with h1 | h2
    · rw [hx, h1]; exact le_max_left _ _
    · rw [hx]; exact le_trans (le_listMaxQ (y :: rest) s h2) (le_max_right _ _)

/-- Transitivity of the descending comparison used by the chunk sort. -/
theorem simDescBool_trans (a b c : ℚ × String)
    (h1 : simDescBool a b) (h2 : simDescBool b c) : simDescBool a c := by
  simp only [simDescBool, decide_eq_true_eq] at h1 h2 ⊢
  exact le_trans h2 h1

/-- Totality of the descending comparison used by the chunk sort. -/
theorem simDescBool_total (a b : ℚ × String) : simDescBool a b || simDescBool b a := by
  simp only [simDescBool, Bool.or_eq_true, decide_eq_true_eq]
  exact le_total b.1 a.1

/-- The chunk sort produces a list that is descending in similarity. -/
theorem sortChunks_pairwise (l : List (ℚ × String)) :
    (sortChunks l).Pairwise (fun a b => b.1 ≤ a.1) := by
  have h := List.sorted_mergeSort simDescBool_trans simDescBool_total l
  exact h.imp (fun hab => by simpa [simDescBool] using hab)

/-- Stability of the chunk sort: the elements carrying any fixed similarity
value keep their original relative order (their filtered subsequence is
unchanged by the sort). -/
theorem sortChunks_stable (l : List (ℚ × String)) (v : ℚ) :
    (sortChunks l).filter (fun c => decide (c.1 = v))
      = l.filter (fun c => decide (c.1 = v)) := by
  have hpw : (l.filter (fun c => decide (c.1 = v))).Pairwise
      (fun a b => simDescBool a b = true) := by
    apply List.pairwise_of_forall_mem_list
    intro a ha b hb
    have ha' := (List.mem_filter.mp ha).2
    have hb' := (List.mem_filter.mp hb).2
    simp only [decide_eq_true_eq] at ha' hb'
    simp [simDescBool, ha', hb']
  have hsub : List.Sublist (l.filter (fun c => decide (c.1 = v))) (sortChunks l) :=
    List.sublist_mergeSort simDescBool_trans simDescBool_total hpw (List.filter_sublist l)
  have hidem : (l.filter (fun c => decide (c.1 = v))).filter (fun c => decide (c.1 = v))
      = l.filter (fun c => decide (c.1 = v)) :=
    List.filter_eq_self.mpr (fun a ha => (List.mem_filter.mp ha).2)
  have hsub2 : List.Sublist (l.filter (fun c => decide (c.1 = v)))
      ((sortChunks l).filter (fun c => decide (c.1 = v))) := by
    have h := hsub.filter (fun c => decide (c.1 = v))
    rwa [hidem] at h
  have hlen : ((sortChunks l).filter (fun c => decide (c.1 = v))).length
      = (l.filter (fun c => decide (c.1 = v))).length :=
    ((List.mergeSort_perm l simDescBool).filter (fun c => decide (c.1 = v))).length_eq
  exact (hsub2.eq_of_length hlen.symm).symm

/-- The surviving chunk count never exceeds the count of fetched documents
whose similarity is at or above the threshold. -/
theorem chunkFilter_length_le (mode : String) (thr : ℚ)
    (triples : List (String × ℚ × ChromaMeta)) :
    (chunkFilter mode thr triples).length
      ≤ (triples.filter (fun t => decide (thr ≤ t.2.1))).length := by
  induction triples with
  | nil => simp [chunkFilter]
  | cons t ts ih =>
    by_cases h1 : pyStrip t.1 = ""
    · rw [show chunkFilter mode thr (t :: ts) = chunkFilter mode thr ts from by
        simp [chunkFilter, List.filterMap_cons, h1]]
      rw [List.filter_cons]
      split
      · exact Nat.le_succ_of_le ih
      · exact ih
    · by_cases h2 : t.2.1 < thr
      · have h3 : ¬ thr ≤ t.2.1 := not_le.mpr h2
        rw [show chunkFilter mode thr (t :: ts) = chunkFilter mode thr ts from by
          simp [chunkFilter, List.filterMap_cons, h1, h2]]
        rw [List.filter_cons, if_neg (by simpa using h3)]
        exact ih
      · have h3 : thr ≤ t.2.1 := not_lt.mp h2
        rw [show chunkFilter mode thr (t :: ts)
            = (t.2.1, tagText mode (pyStrip t.1) t.2.2) :: chunkFilter mode thr ts from by
          simp [chunkFilter, List.filterMap_cons, h1, h2]]
        rw [List.filter_cons, if_pos (by simpa using h3)]
        simpa using Nat.succ_le_succ ih

/-! ### Claim theorems -/

/-- C1: in `ChromaContextAdapter.build_messages`, for every non-empty fetched
result set the filtering threshold equals
`max(best_similarity / dynamic_multiplier, min_similarity)` where
`best_similarity` is the maximum of the similarities `1 - distance`; in
particular, for similarities `[0.9, 0.3, 0.1]` with `dynamic_multiplier = 4`
and `min_similarity = 0.15` the threshold is `0.225` and exactly the
documents with similarities `0.9` and `0.3` survive the filter. -/
theorem C1_adaptive_threshold :
    (∀ (distances : List ℚ) (dm ms : ℚ), distances ≠ [] →
        adaptiveThreshold distances dm ms
            = max (listMaxQ (similaritiesOf distances) / dm) ms
        ∧ listMaxQ (similaritiesOf distances) ∈ similaritiesOf distances
        ∧ ∀ s ∈ similaritiesOf distances, s ≤ listMaxQ (similaritiesOf distances))
    ∧ adaptiveThreshold [1/10, 7/10, 9/10] 4 (3/20) = 9/40
    ∧ chunkFilter "none" (adaptiveThreshold [1/10, 7/10, 9/10] 4 (3/20))
        [("docA", (9:ℚ)/10, ⟨none, none⟩), ("docB", (3:ℚ)/10, ⟨none, none⟩),
         ("docC", (1:ℚ)/10, ⟨none, none⟩)]
      = [((9:ℚ)/10, "docA"), ((3:ℚ)/10, "docB")] := by
  have hthr : adaptiveThreshold [1/10, 7/10, 9/10] 4 (3/20) = 9/40 := by
    simp [adaptiveThreshold, similaritiesOf, listMaxQ, max_def]
    norm_num
  refine ⟨?_, hthr, ?_⟩
  · intro distances dm ms h
    refine ⟨rfl, ?_, ?_⟩
    · apply listMaxQ_mem
      simpa [similaritiesOf] using h
    · intro s hs
      exact le_listMaxQ _ s hs
  · rw [hthr]
    have da : pyStrip "docA" = "docA" := by decide
    have db : pyStrip "docB" = "docB" := by decide
    have dc : pyStrip "docC" = "docC" := by decide
    have ha : ¬ ((9:ℚ)/10 < 9/40) := by norm_num
    have hb : ¬ ((3:ℚ)/10 < 9/40) := by norm_num
    have hc : ((1:ℚ)/10 < 9/40) := by norm_num
    have hc2 : ((10:ℚ)⁻¹ < 9/40) := by norm_num
    simp [chunkFilter, List.filterMap_cons, da, db, dc, ha, hb, hc, hc2, tagText]

/-- Witness for C1 at the concrete distance list `[0.1, 0.7, 0.9]`. -/
theorem C1_adaptive_threshold_witness :
    adaptiveThreshold [1/10, 7/10, 9/10] 4 (3/20)
        = max (listMaxQ (similaritiesOf [1/10, 7/10, 9/10]) / 4) (3/20)
    ∧ listMaxQ (similaritiesOf [1/10, 7/10, 9/10])
        ∈ similaritiesOf [1/10, 7/10, 9/10] := by
  have h := C1_adaptive_threshold.1 [1/10, 7/10, 9/10] 4 (3/20) (by simp)
  exact ⟨h.1, h.2.1⟩

/-- C5 (amended): `store_turn` produces exactly two documents with ids
`"{turn_id}_req"` and `"{turn_id}_res"` (request first), each with metadata
carrying the conversation id, turn id, message type, role, speaker and
timestamp; it appends exactly two JSON lines to the audit file when a
non-empty export path is given and none when the path is omitted or is the
empty string (the guard `if json_export_path and json_records:` treats the
empty-string path as falsy). -/
theorem C5_store_turn_two_documents (conversation_id : String) (t : Turn)
    (collection_name : String) (path : String) (hpath : ¬ path = "") :
    (store_turn conversation_id t collection_name (some path)).ids
        = [t.uuid ++ "_req", t.uuid ++ "_res"]
    ∧ (store_turn conversation_id t collection_name (some path)).docs
        = [t.request.to_memory_string, t.response.to_memory_string]
    ∧ (store_turn conversation_id t collection_name (some path)).metadatas
        = [⟨conversation_id, t.uuid, "req", t.request.role,
              t.request.speaker, t.request.timestamp⟩,
           ⟨conversation_id, t.uuid, "res", t.response.role,
              t.response.speaker, t.response.timestamp⟩]
    ∧ (store_turn conversation_id t collection_name (some path)).audit_lines.length = 2
    ∧ (store_turn conversation_id t collection_name none).audit_lines = []
    ∧ (store_turn conversation_id t collection_name (some "")).audit_lines = [] := by
  refine ⟨?_, rfl, rfl, ?_, rfl, rfl⟩
  · simp [store_turn, store_batch, turnEntries, String.append_assoc]
  · simp [store_turn, store_batch, turnEntries, hpath]

/-- Counterexample for C5 as originally stated: with the export path given
as the empty string, the program appends zero audit lines, not two. -/
theorem C5_empty_path_counterexample :
    (store_turn "conv"
        (Turn.mk "t1" "conv" (Message.mk "m1" "user" "W" "hello" "d1")
          (Message.mk "m2" "assistant" "J" "hi" "d1"))
        "episodic" (some "")).audit_lines = []
    ∧ ¬ (store_turn "conv"
        (Turn.mk "t1" "conv" (Message.mk "m1" "user" "W" "hello" "d1")
          (Message.mk "m2" "assistant" "J" "hi" "d1"))
        "episodic" (some "")).audit_lines.length = 2 := by
  exact ⟨rfl, by decide⟩

/-- Witness for C5 at a concrete turn and the non-empty path
`"audit.jsonl"`. -/
theorem C5_store_turn_two_documents_witness :
    (store_turn "conv"
        (Turn.mk "t1" "conv" (Message.mk "m1" "user" "W" "hello" "d1")
          (Message.mk "m2" "assistant" "J" "hi" "d1"))
        "episodic" (some "audit.jsonl")).audit_lines.length = 2
    ∧ (store_turn "conv"
        (Turn.mk "t1" "conv" (Message.mk "m1" "user" "W" "hello" "d1")
          (Message.mk "m2" "assistant" "J" "hi" "d1"))
        "episodic" (some "audit.jsonl")).ids = ["t1_req", "t1_res"] := by
  have h := C5_store_turn_two_documents "conv"
    (Turn.mk "t1" "conv" (Message.mk "m1" "user" "W" "hello" "d1")
      (Message.mk "m2" "assistant" "J" "hi" "d1"))
    "episodic" "audit.jsonl" (by decide)
  exact ⟨h.2.2.2.1, h.1.trans (by decide)⟩

/-- C8: `store_turn` is exactly `store_batch` applied to the singleton list
of its turn (the source delegates, so all observables coincide). -/
theorem C8_store_turn_is_singleton_batch (conversation_id : String) (turn : Turn)
    (collection_name : String) (json_export_path : Option String) :
    store_turn conversation_id turn collection_name json_export_path
        = store_batch conversation_id [turn] collection_name json_export_path
    ∧ (store_turn conversation_id turn collection_name json_export_path).docs
        = (store_batch conversation_id [turn] collection_name json_export_path).docs
    ∧ (store_turn conversation_id turn collection_name json_export_path).ids
        = (store_batch conversation_id [turn] collection_name json_export_path).ids
    ∧ (store_turn conversation_id turn collection_name json_export_path).metadatas
        = (store_batch conversation_id [turn] collection_name json_export_path).metadatas
    ∧ (store_turn conversation_id turn collection_name json_export_path).audit_lines
        = (store_batch conversation_id [turn] collection_name json_export_path).audit_lines :=
  ⟨rfl, rfl, rfl, rfl, rfl⟩

/-- C9: under the source-file tagging policy, when the sanitization chain
yields the empty string the inner tag used is the literal `"unknown"`. -/
theorem C9_empty_sanitized_tag_unknown (s text : String)
    (h : sanitizeChars s.data = []) :
    cleanTagOf s = "unknown"
    ∧ tagText "source_file" text ⟨some s, none⟩
        = "<unknown>" ++ text ++ "</unknown>" := by
  constructor
  · simp [cleanTagOf, h]
  · simp [tagText, cleanTagOf, h, String.append_assoc]

/-- Witness for C9 at the source-file name `"!!!.txt"`, which sanitizes to
the empty string. -/
theorem C9_empty_sanitized_tag_unknown_witness :
    cleanTagOf "!!!.txt" = "unknown"
    ∧ tagText "source_file" "hello" ⟨some "!!!.txt", none⟩
        = "<unknown>hello</unknown>" := by
  have h := C9_empty_sanitized_tag_unknown "!!!.txt" "hello" (by decide)
  exact ⟨h.1, h.2.trans (by decide)⟩

/-- C10: `FactStore.append_fact` is idempotent on duplicates: appending an
already-present fact leaves the fact list unchanged, while appending a new
fact adds exactly one entry at the end. -/
theorem C10_append_fact_idempotent (facts : List FactTriple) (fact : FactTriple) :
    (fact ∈ facts → append_fact facts fact = facts)
    ∧ (fact ∉ facts →
        append_fact facts fact = facts ++ [fact]
        ∧ (append_fact facts fact).length = facts.length + 1) := by
  constructor
  · intro h
    simp [append_fact, h]
  · intro h
    simp [append_fact, h]

/-- Witness for C10: one duplicate append (no change) and one fresh append
(one new entry). -/
theorem C10_append_fact_idempotent_witness :
    append_fact [⟨"sky", "is", "blue"⟩] ⟨"sky", "is", "blue"⟩
        = [⟨"sky", "is", "blue"⟩]
    ∧ append_fact [⟨"sky", "is", "blue"⟩] ⟨"grass", "is", "green"⟩
        = [⟨"sky", "is", "blue"⟩, ⟨"grass", "is", "green"⟩] :=
  ⟨(C10_append_fact_idempotent _ _).1 (by decide),
   ((C10_append_fact_idempotent _ _).2 (by decide)).1⟩

/-- C6: a retrieved document whose metadata lacks the key required by the
adapter's tagging policy (`source_file` under the source-file policy,
`role` under the role policy) is included untagged by the filtering loop
rather than dropped (and the total Lean embedding rules out raising). -/
theorem C6_missing_metadata_untagged :
    (∀ (text : String) (meta : ChromaMeta), meta.source_file = none →
        tagText "source_file" text meta = text)
    ∧ (∀ (text : String) (meta : ChromaMeta), meta.role = none →
        tagText "simple" text meta = text)
    ∧ (∀ (mode : String) (thr : ℚ) (triples : List (String × ℚ × ChromaMeta))
        (d : String) (sim : ℚ) (meta : ChromaMeta),
        (d, sim, meta) ∈ triples → ¬ pyStrip d = "" → ¬ sim < thr →
        (sim, tagText mode (pyStrip d) meta) ∈ chunkFilter mode thr triples) := by
  refine ⟨?_, ?_, ?_⟩
  · intro text meta h
    simp [tagText, h]
  · intro text meta h
    simp [tagText, h]
  · intro mode thr triples d sim meta hmem h1 h2
    apply List.mem_filterMap.mpr
    refine ⟨(d, sim, meta), hmem, ?_⟩
    simp [h1, h2]

/-- Witness for C6: metadata with neither key present, under both policies,
and inclusion of such a document in the surviving chunks. -/
theorem C6_missing_metadata_untagged_witness :
    tagText "source_file" "txt" ⟨none, none⟩ = "txt"
    ∧ tagText "simple" "txt" ⟨none, none⟩ = "txt"
    ∧ ((1 : ℚ), tagText "source_file" (pyStrip "doc") ⟨none, none⟩)
        ∈ chunkFilter "source_file" 0 [("doc", (1:ℚ), ⟨none, none⟩)] :=
  ⟨C6_missing_metadata_untagged.1 "txt" ⟨none, none⟩ rfl,
   C6_missing_metadata_untagged.2.1 "txt" ⟨none, none⟩ rfl,
   C6_missing_metadata_untagged.2.2 "source_file" 0 _ "doc" 1 ⟨none, none⟩
     (by simp) (by decide) (by simp)⟩

/-- C2: the number of chunks selected by `ChromaContextAdapter.build_messages`
is at most `min top_k (count of documents at or above the threshold)`; the
selected chunks are ordered by similarity descending with ties kept in
original fetch order (stable sort); and with no fetched documents, or with
nothing surviving the filter, no message is returned. -/
theorem C2_ranked_capped_sorted :
    (∀ (mode : String) (thr : ℚ) (triples : List (String × ℚ × ChromaMeta))
        (top_k : Nat),
        ((sortChunks (chunkFilter mode thr triples)).take top_k).length
            ≤ min top_k (triples.filter (fun t => decide (thr ≤ t.2.1))).length
        ∧ ((sortChunks (chunkFilter mode thr triples)).take top_k).Pairwise
            (fun a b => b.1 ≤ a.1)
        ∧ ∀ v : ℚ, (sortChunks (chunkFilter mode thr triples)).filter
              (fun c => decide (c.1 = v))
            = (chunkFilter mode thr triples).filter (fun c => decide (c.1 = v)))
    ∧ (∀ (collection mode : String) (store : Store) (q : String) (top_k : Nat)
        (tag : Option String) (mo : Nat) (ms dm : ℚ),
        (store collection q (min (top_k * 4) mo)).documents = [] →
        chromaBuildMessages collection mode store q top_k tag mo ms dm = [])
    ∧ (∀ (collection mode : String) (store : Store) (q : String) (top_k : Nat)
        (tag : Option String) (mo : Nat) (ms dm : ℚ),
        chunkFilter mode
            (adaptiveThreshold (store collection q (min (top_k * 4) mo)).distances dm ms)
            ((store collection q (min (top_k * 4) mo)).documents.zip
              ((similaritiesOf (store collection q (min (top_k * 4) mo)).distances).zip
                (store collection q (min (top_k * 4) mo)).metadatas)) = [] →
        chromaBuildMessages collection mode store q top_k tag mo ms dm = []) := by
  refine ⟨?_, ?_, ?_⟩
  · intro mode thr triples top_k
    refine ⟨?_, ?_, ?_⟩
    · have h1 : (sortChunks (chunkFilter mode thr triples)).length
          = (chunkFilter mode thr triples).length := by
        simp [sortChunks]
      rw [List.length_take, h1]
      exact min_le_min (le_refl top_k) (chunkFilter_length_le mode thr triples)
    · exact List.Pairwise.sublist (List.take_sublist _ _) (sortChunks_pairwise _)
    · intro v
      exact sortChunks_stable _ v
  · intro collection mode store q top_k tag mo ms dm h
    simp [chromaBuildMessages, h]
  · intro collection mode store q top_k tag mo ms dm h
    simp [chromaBuildMessages, h, sortChunks]

/-- Witness for C2: a store returning no documents yields no message, and
the cap/sort facts at a small concrete input. -/
theorem C2_ranked_capped_sorted_witness :
    chromaBuildMessages "semantic" "source_file" (fun _ _ _ => QueryResult.mk [] [] [])
        "hello" 5 none 30 (3/20) 4 = []
    ∧ ((sortChunks (chunkFilter "none" 0
          [("doc", (1:ℚ), ChromaMeta.mk none none)])).take 5).length
        ≤ min 5 ([("doc", (1:ℚ), ChromaMeta.mk none none)].filter
            (fun t => decide ((0:ℚ) ≤ t.2.1))).length :=
  ⟨C2_ranked_capped_sorted.2.1 "semantic" "source_file" _ "hello" 5 none 30 (3/20) 4 rfl,
   (C2_ranked_capped_sorted.1 "none" 0 [("doc", (1:ℚ), ChromaMeta.mk none none)] 5).1⟩

/-- C3: `ContextPipeline.build_messages` always prepends exactly the three
fixed messages (system, assistant-intro, focus, in that order, each in its
own tag); and when the cache is empty and every chroma retrieval returns no
documents, the output on a non-blank request `q` is exactly the six
messages: system, assistant-intro, focus, timestamp, `user("<user>q</user>")`
and `assistant("<assistant>")`. -/
theorem C3_pipeline_fixed_and_minimal :
    (∀ (p : ContextPipeline) (clock q : String),
        (pipelineBuildMessages p clock q).take 3 = pipelineFixedMessages p.instructions)
    ∧ (∀ (p : ContextPipeline) (clock q : String),
        ¬ pyStrip q = "" → p.cache = [] →
        (∀ coll n, (p.store coll q n).documents = []) →
        pipelineBuildMessages p clock q =
          [⟨"system", "<system>" ++ p.instructions.system_message ++ "</system>"⟩,
           ⟨"assistant", "<assistant_intro>" ++ p.instructions.assistant_intro
              ++ "</assistant_intro>"⟩,
           ⟨"system", "<focus>" ++ p.instructions.assistant_focus ++ "</focus>"⟩,
           ⟨"system", "<timestamp>The current date and time is: " ++ clock
              ++ "</timestamp>"⟩,
           ⟨"user", "<user>" ++ q ++ "</user>"⟩,
           ⟨"assistant", "<assistant>"⟩]) := by
  constructor
  · intro p clock q
    rfl
  · intro p clock q hq hc hs
    have h1 : chromaBuildMessages "semantic" "source_file" p.store q 5 none 30 (3/20) 4
        = [] := by
      simp [chromaBuildMessages, hq, hs]
    have h2 : chromaBuildMessages "episodic" "simple" p.store q 5 none 30 (3/20) 4
        = [] := by
      simp [chromaBuildMessages, hq, hs]
    simp [pipelineBuildMessages, pipelineFixedMessages, timestampMessages,
      userRequestMessages, assistantPrefixMessages, cacheMessages, h1, h2, hc,
      String.append_assoc]

/-- Witness for C3: a concrete pipeline with empty cache and a store with no
documents, on the request "Hello". -/
theorem C3_pipeline_fixed_and_minimal_witness :
    pipelineBuildMessages
        ⟨⟨"SYS", "INTRO", "FOCUS"⟩, fun _ _ _ => QueryResult.mk [] [] [], []⟩
        "Jan 1" "Hello"
      = [⟨"system", "<system>SYS</system>"⟩,
         ⟨"assistant", "<assistant_intro>INTRO</assistant_intro>"⟩,
         ⟨"system", "<focus>FOCUS</focus>"⟩,
         ⟨"system", "<timestamp>The current date and time is: Jan 1</timestamp>"⟩,
         ⟨"user", "<user>Hello</user>"⟩,
         ⟨"assistant", "<assistant>"⟩] := by
  have h := C3_pipeline_fixed_and_minimal.2
    ⟨⟨"SYS", "INTRO", "FOCUS"⟩, fun _ _ _ => QueryResult.mk [] [] [], []⟩
    "Jan 1" "Hello" (by decide) rfl (fun coll n => rfl)
  exact h.trans (by decide)

/-- C7: `ContextPipeline.build_messages` is a pure function of the pipeline
state and the request: two calls with different clock readings differ only
in the timestamp message (position 3), whose content carries the clock
literal; no registry, cache or store mutation occurs (the embedding is
state-passing and the state is read-only here). -/
theorem C7_deterministic_modulo_timestamp (p : ContextPipeline) (t1 t2 q : String) :
    (pipelineBuildMessages p t1 q).eraseIdx 3 = (pipelineBuildMessages p t2 q).eraseIdx 3
    ∧ (pipelineBuildMessages p t1 q).take 4
        = pipelineFixedMessages p.instructions
            ++ [⟨"system", "<timestamp>The current date and time is: " ++ t1
                  ++ "</timestamp>"⟩] :=
  ⟨rfl, rfl⟩

/-- Folding `cacheAdd` over a turn sequence keeps exactly the most recent
`cap` turns (deque-with-maxlen semantics). -/
theorem foldl_cacheAdd (cap : Nat) :
    ∀ (ts init : List Turn), init.length ≤ cap →
      List.foldl (cacheAdd cap) init ts
        = (init ++ ts).drop (init.length + ts.length - cap)
  | [], init, h => by
    simp [Nat.sub_eq_zero_of_le h]
  | t :: ts, init, h => by
    have hstep : cacheAdd cap init t = (init ++ [t]).drop (init.length + 1 - cap) := by
      simp [cacheAdd]
    have hlen : (cacheAdd cap init t).length ≤ cap := by
      rw [hstep]
      simp only [List.length_drop, List.length_append, List.length_cons, List.length_nil]
      omega
    rw [List.foldl_cons, foldl_cacheAdd cap ts (cacheAdd cap init t) hlen, hstep]
    rw [← List.drop_append_of_le_length (by simp)]
    rw [List.drop_drop]
    congr 1
    · simp only [List.length_drop, List.length_append, List.length_cons,
        List.length_nil]
      omega
    · simp

/-- C4: the recency cache is a fixed-capacity FIFO: after `capacity + 1`
insertions, the cache holds exactly the last `capacity` turns in insertion
order, `build_messages` renders exactly those turns (request line before
response line, oldest first), the oldest original turn is gone, and an
empty cache yields no message. -/
theorem C4_cache_fifo :
    (∀ (cap : Nat) (ts : List Turn), 0 < cap → ts.length = cap + 1 →
        List.foldl (cacheAdd cap) [] ts = ts.drop 1
        ∧ cacheMessages (List.foldl (cacheAdd cap) [] ts)
            = [⟨"system", "<chat_history>\n"
                  ++ String.intercalate "\n" ((ts.drop 1).flatMap turnHistoryLines)
                  ++ "\n</chat_history>"⟩]
        ∧ (ts.Nodup → ∀ t0, ts.head? = some t0 →
            t0 ∉ List.foldl (cacheAdd cap) [] ts))
    ∧ cacheMessages [] = [] := by
  constructor
  · intro cap ts hcap hlen
    have hfold : List.foldl (cacheAdd cap) [] ts = ts.drop 1 := by
      have h := foldl_cacheAdd cap ts [] (by simp)
      simp only [List.nil_append, List.length_nil, Nat.zero_add] at h
      rw [h, hlen]
      congr 1
      omega
    refine ⟨hfold, ?_, ?_⟩
    · rw [hfold]
      have hne : ¬ ts.drop 1 = [] := by
        intro hh
        have hl := congrArg List.length hh
        simp only [List.length_drop, hlen, List.length_nil] at hl
        omega
      have hne' : ¬ ts.tail = [] := by simpa [List.drop_one] using hne
      simp [cacheMessages, hne, hne']
    · intro hnd t0 ht0
      rw [hfold]
      cases ts with
      | nil => simp at ht0
      | cons a rest =>
        simp only [List.head?_cons, Option.some.injEq] at ht0
        subst ht0
        simp only [List.drop_succ_cons, List.drop_zero]
        exact (List.nodup_cons.mp hnd).1
  · rfl

/-- Witness for C4 at capacity 2 with three distinct turns. -/
theorem C4_cache_fifo_witness :
    List.foldl (cacheAdd 2) []
        [Turn.mk "t1" "c" (Message.mk "m1" "user" "W" "one" "d1")
           (Message.mk "m2" "assistant" "J" "ansone" "d1"),
         Turn.mk "t2" "c" (Message.mk "m3" "user" "W" "two" "d2")
           (Message.mk "m4" "assistant" "J" "anstwo" "d2"),
         Turn.mk "t3" "c" (Message.mk "m5" "user" "W" "three" "d3")
           (Message.mk "m6" "assistant" "J" "ansthree" "d3")]
      = [Turn.mk "t2" "c" (Message.mk "m3" "user" "W" "two" "d2")
           (Message.mk "m4" "assistant" "J" "anstwo" "d2"),
         Turn.mk "t3" "c" (Message.mk "m5" "user" "W" "three" "d3")
           (Message.mk "m6" "assistant" "J" "ansthree" "d3")]
    ∧ Turn.mk "t1" "c" (Message.mk "m1" "user" "W" "one" "d1")
          (Message.mk "m2" "assistant" "J" "ansone" "d1")
        ∉ List.foldl (cacheAdd 2) []
            [Turn.mk "t1" "c" (Message.mk "m1" "user" "W" "one" "d1")
               (Message.mk "m2" "assistant" "J" "ansone" "d1"),
             Turn.mk "t2" "c" (Message.mk "m3" "user" "W" "two" "d2")
               (Message.mk "m4" "assistant" "J" "anstwo" "d2"),
             Turn.mk "t3" "c" (Message.mk "m5" "user" "W" "three" "d3")
               (Message.mk "m6" "assistant" "J" "ansthree" "d3")] := by
  have h := C4_cache_fifo.1 2
    [Turn.mk "t1" "c" (Message.mk "m1" "user" "W" "one" "d1")
       (Message.mk "m2" "assistant" "J" "ansone" "d1"),
     Turn.mk "t2" "c" (Message.mk "m3" "user" "W" "two" "d2")
       (Message.mk "m4" "assistant" "J" "anstwo" "d2"),
     Turn.mk "t3" "c" (Message.mk "m5" "user" "W" "three" "d3")
       (Message.mk "m6" "assistant" "J" "ansthree" "d3")]
    (by decide) (by decide)
  exact ⟨h.1, h.2.2 (by decide) _ rfl⟩
